import Mathlib

/-!
Shallow embedding of `src/wasm32/js/module_worker_start.js`:

```js
let _worker;
export function startWorker() {
  const worker = new Worker(
    new URL('./web_worker_module.js', import.meta.url),
    {
      type: 'module',
      name: 'wasm_thread'
    }
  );
  _worker = worker;
  return worker;
}
```

The module-level binding `_worker`, the platform's `Worker` constructor
(which either throws or yields a fresh object identity), and the ambient
`import.meta.url` are made explicit.  The world also records, for the
benefit of the theorems, the sequence of constructor invocations (the
`spawnLog`) and an opaque component `other` standing for every piece of
state outside this module.
-/

namespace WasmThread

/-- Options object literal passed to the Worker constructor on lines 5-8
of the source: a `type` field and a `name` field. -/
structure WorkerOptions where
  type : String
  name : String
deriving DecidableEq, Repr

/-- A URL value as produced by `new URL(relative, base)`: the platform
resolves `relative` against `base`; the fragment treats the result as an
opaque reference, so both components are kept. -/
structure URL where
  relative : String
  base : String
deriving DecidableEq, Repr

/-- An opaque Worker handle.  Each invocation of the Worker constructor
produces a fresh object identity, modelled by the serial number `id`;
the handle also carries the script URL and the options it was
constructed with. -/
structure WorkerHandle where
  id : Nat
  scriptURL : URL
  options : WorkerOptions
deriving DecidableEq, Repr

/-- An error thrown by the platform's Worker constructor. -/
structure SpawnError where
  message : String
deriving DecidableEq, Repr

/-- Ambient environment of a call: this module's own `import.meta.url`,
and the location of whatever module invoked `startWorker` (the source
never consults the latter). -/
structure Env where
  importMetaUrl : String
  callerUrl : String
deriving DecidableEq, Repr

/-- The platform's behaviour for the Worker constructor: spawn attempt
number `n` either throws `some e` or succeeds. -/
structure Platform where
  fails : Nat → Option SpawnError

/-- Process-wide state: the module-level binding `_worker` declared on
line 1 of the source, the platform's fresh-identity counter `nextId`,
the log `spawnLog` of constructor invocations, and `other`, an opaque
stand-in for all state outside this module. -/
structure World (σ : Type) where
  _worker : Option WorkerHandle
  nextId : Nat
  spawnLog : List (URL × WorkerOptions)
  other : σ
deriving Repr

variable {σ : Type}

/-- The platform primitive `new Worker(url, opts)`: the invocation is
recorded, then the constructor either throws (leaving the rest of the
world untouched) or returns a fresh handle and advances the identity
counter. -/
def newWorker (plat : Platform) (url : URL) (opts : WorkerOptions)
    (w : World σ) : Except SpawnError WorkerHandle × World σ :=
  match plat.fails w.nextId with
  | some e =>
      (Except.error e,
        ⟨w._worker, w.nextId, w.spawnLog ++ [(url, opts)], w.other⟩)
  | none =>
      (Except.ok ⟨w.nextId, url, opts⟩,
        ⟨w._worker, w.nextId + 1, w.spawnLog ++ [(url, opts)], w.other⟩)

/-- Line 4 of the source: `new URL('./web_worker_module.js',
import.meta.url)`.  The base of the resolution is the launching
module's own location. -/
def workerScriptURL (env : Env) : URL :=
  ⟨"./web_worker_module.js", env.importMetaUrl⟩

/-- Lines 5-8 of the source: the hard-coded options literal
`{ type: 'module', name: 'wasm_thread' }`. -/
def workerOptions : WorkerOptions :=
  ⟨"module", "wasm_thread"⟩

/-- Lines 2-12 of the source, the exported function `startWorker`:
construct the worker, store the handle into `_worker`, and return it.
A constructor throw propagates unmodified and skips the store. -/
def startWorker (plat : Platform) (env : Env) (w : World σ) :
    Except SpawnError WorkerHandle × World σ :=
  match newWorker plat (workerScriptURL env) workerOptions w with
  | (Except.error e, w1) => (Except.error e, w1)
  | (Except.ok worker, w1) =>
      (Except.ok worker, ⟨some worker, w1.nextId, w1.spawnLog, w1.other⟩)

/-- The module's export list: line 2 exports `startWorker` and nothing
else; the binding `_worker` on line 1 carries no export keyword and is
module-private. -/
def moduleExports : List String := ["startWorker"]

/-- Characterisation of one call to `startWorker`, by cases on whether
the platform's constructor throws at the current identity counter. -/
theorem startWorker_eq (plat : Platform) (env : Env) (w : World σ) :
    startWorker plat env w =
      match plat.fails w.nextId with
      | some e =>
          (Except.error e,
            ⟨w._worker, w.nextId,
              w.spawnLog ++ [(workerScriptURL env, workerOptions)], w.other⟩)
      | none =>
          (Except.ok ⟨w.nextId, workerScriptURL env, workerOptions⟩,
            ⟨some ⟨w.nextId, workerScriptURL env, workerOptions⟩, w.nextId + 1,
              w.spawnLog ++ [(workerScriptURL env, workerOptions)], w.other⟩) := by
  cases hf : plat.fails w.nextId <;> simp [startWorker, newWorker, hf]

/-- A platform on which every spawn attempt succeeds. -/
def okPlat : Platform := ⟨fun _ => none⟩

/-- A platform on which every spawn attempt throws a security error. -/
def failPlat : Platform := ⟨fun _ => some ⟨"SecurityError"⟩⟩

/-- A concrete environment: the module served from example.com, called
from an application module. -/
def testEnv : Env :=
  ⟨"https://example.com/src/wasm32/js/module_worker_start.js",
    "https://example.com/app/main.js"⟩

/-- The same module location as `testEnv` but a different caller. -/
def testEnv2 : Env :=
  ⟨"https://example.com/src/wasm32/js/module_worker_start.js",
    "https://example.com/other/caller.js"⟩

/-- The world at module load time: `_worker` is uninitialised, no spawn
has happened. -/
def initialWorld : World Unit := ⟨none, 0, [], ()⟩

/-- A world in which one worker was already started and remembered. -/
def midWorld : World Unit :=
  ⟨some ⟨0, workerScriptURL testEnv, workerOptions⟩, 1,
    [(workerScriptURL testEnv, workerOptions)], ()⟩

/-- Claim C1: when a call to `startWorker` succeeds, the handle it
returns is the non-null value stored into the module binding, and the
world in which the operation returns already holds that exact handle:
the store happens before the return. -/
theorem startWorker_success_stores_handle (plat : Platform) (env : Env)
    (w : World σ) (h : WorkerHandle)
    (hs : (startWorker plat env w).1 = Except.ok h) :
    (startWorker plat env w).2._worker = some h := by
  rw [startWorker_eq] at hs ⊢
  cases hf : plat.fails w.nextId <;> simp [hf] at hs ⊢
  exact hs

/-- Witness for C1 at a concrete platform, environment and world. -/
theorem startWorker_success_stores_handle_witness :
    (startWorker okPlat testEnv initialWorld).2._worker
      = some ⟨0, workerScriptURL testEnv, workerOptions⟩ :=
  startWorker_success_stores_handle okPlat testEnv initialWorld
    ⟨0, workerScriptURL testEnv, workerOptions⟩ rfl

/-- Claim C2: when the platform constructor throws an error, startWorker
raises that very error unmodified, and the module binding is exactly what
it was before the call: no partial update. -/
theorem startWorker_error_propagation (plat : Platform) (env : Env)
    (w : World σ) (e : SpawnError) (hf : plat.fails w.nextId = some e) :
    (startWorker plat env w).1 = Except.error e ∧
    (startWorker plat env w).2._worker = w._worker := by
  rw [startWorker_eq]
  simp [hf]

/-- Witness for C2 on a platform that refuses every spawn. -/
theorem startWorker_error_propagation_witness :
    (startWorker failPlat testEnv initialWorld).1
        = Except.error ⟨"SecurityError"⟩ ∧
    (startWorker failPlat testEnv initialWorld).2._worker
        = initialWorld._worker :=
  startWorker_error_propagation failPlat testEnv initialWorld
    ⟨"SecurityError"⟩ rfl

/-- Claim C3: two consecutive successful calls produce two handles; after
the second call the module binding holds the second handle and not the
first: each call unconditionally overwrites the stored handle. -/
theorem startWorker_overwrite (plat : Platform) (env : Env) (w : World σ)
    (h1 h2 : WorkerHandle)
    (hs1 : (startWorker plat env w).1 = Except.ok h1)
    (hs2 : (startWorker plat env (startWorker plat env w).2).1
        = Except.ok h2) :
    (startWorker plat env w).2._worker = some h1 ∧
    (startWorker plat env (startWorker plat env w).2).2._worker = some h2 ∧
    (startWorker plat env (startWorker plat env w).2).2._worker
        ≠ some h1 := by
  simp only [startWorker_eq] at hs1 hs2 ⊢
  cases hf1 : plat.fails w.nextId <;> simp [hf1] at hs1 hs2 ⊢
  cases hf2 : plat.fails (w.nextId + 1) <;> simp [hf2] at hs2 ⊢
  subst hs1
  subst hs2
  simp [WorkerHandle.mk.injEq]

/-- Witness for C3: two concrete successive calls from the initial
world. -/
theorem startWorker_overwrite_witness :
    (startWorker okPlat testEnv initialWorld).2._worker
        = some ⟨0, workerScriptURL testEnv, workerOptions⟩ ∧
    (startWorker okPlat testEnv
        (startWorker okPlat testEnv initialWorld).2).2._worker
        = some ⟨1, workerScriptURL testEnv, workerOptions⟩ ∧
    (startWorker okPlat testEnv
        (startWorker okPlat testEnv initialWorld).2).2._worker
        ≠ some ⟨0, workerScriptURL testEnv, workerOptions⟩ :=
  startWorker_overwrite okPlat testEnv initialWorld
    ⟨0, workerScriptURL testEnv, workerOptions⟩
    ⟨1, workerScriptURL testEnv, workerOptions⟩ rfl rfl

/-- Claim C4: the URL passed to the spawn primitive is resolved against
the launching module's own import.meta.url, and the entire behaviour of
startWorker is unchanged under any change of the caller's location. -/
theorem startWorker_caller_independent (plat : Platform) (env env' : Env)
    (w : World σ) (hmod : env.importMetaUrl = env'.importMetaUrl) :
    (workerScriptURL env).base = env.importMetaUrl ∧
    startWorker plat env w = startWorker plat env' w := by
  refine ⟨rfl, ?_⟩
  simp only [startWorker_eq, workerScriptURL, hmod]

/-- Witness for C4: two environments differing only in the caller's
location produce identical calls. -/
theorem startWorker_caller_independent_witness :
    (workerScriptURL testEnv).base = testEnv.importMetaUrl ∧
    startWorker okPlat testEnv initialWorld
      = startWorker okPlat testEnv2 initialWorld :=
  startWorker_caller_independent okPlat testEnv testEnv2 initialWorld rfl

/-- Claim C5: every call hands the spawn primitive exactly one request,
and the configuration in it is identical on every call: module-style
execution and the same fixed label wasm_thread. -/
theorem startWorker_config_constant (plat : Platform) (env : Env)
    (w : World σ) :
    (startWorker plat env w).2.spawnLog
        = w.spawnLog ++ [(workerScriptURL env, workerOptions)] ∧
    workerOptions.type = "module" ∧ workerOptions.name = "wasm_thread" := by
  rw [startWorker_eq]
  cases hf : plat.fails w.nextId <;> simp [hf, workerOptions]

/-- Claim C6: each successful call spawns exactly one new thread (the
spawn log grows by exactly one entry per call) and returns a freshly
created handle: two successive successful calls return distinct handles,
and afterwards the module binding holds the second one. -/
theorem startWorker_fresh_handles (plat : Platform) (env : Env)
    (w : World σ) (h1 h2 : WorkerHandle)
    (hs1 : (startWorker plat env w).1 = Except.ok h1)
    (hs2 : (startWorker plat env (startWorker plat env w).2).1
        = Except.ok h2) :
    h1 ≠ h2 ∧
    (startWorker plat env (startWorker plat env w).2).2._worker
        = some h2 ∧
    (startWorker plat env w).2.spawnLog.length = w.spawnLog.length + 1 ∧
    (startWorker plat env (startWorker plat env w).2).2.spawnLog.length
        = (startWorker plat env w).2.spawnLog.length + 1 := by
  simp only [startWorker_eq] at hs1 hs2 ⊢
  cases hf1 : plat.fails w.nextId <;> simp [hf1] at hs1 hs2 ⊢
  cases hf2 : plat.fails (w.nextId + 1) <;> simp [hf2] at hs2 ⊢
  subst hs1
  subst hs2
  simp [WorkerHandle.mk.injEq]

/-- Witness for C6: the two handles produced from the initial world are
distinct and the second is the one remembered. -/
theorem startWorker_fresh_handles_witness :
    (⟨0, workerScriptURL testEnv, workerOptions⟩ : WorkerHandle)
        ≠ ⟨1, workerScriptURL testEnv, workerOptions⟩ ∧
    (startWorker okPlat testEnv
        (startWorker okPlat testEnv initialWorld).2).2._worker
        = some ⟨1, workerScriptURL testEnv, workerOptions⟩ ∧
    (startWorker okPlat testEnv initialWorld).2.spawnLog.length
        = initialWorld.spawnLog.length + 1 ∧
    (startWorker okPlat testEnv
        (startWorker okPlat testEnv initialWorld).2).2.spawnLog.length
        = (startWorker okPlat testEnv initialWorld).2.spawnLog.length + 1 :=
  startWorker_fresh_handles okPlat testEnv initialWorld
    ⟨0, workerScriptURL testEnv, workerOptions⟩
    ⟨1, workerScriptURL testEnv, workerOptions⟩ rfl rfl

/-- Claim C7: the module state is a single variable that is either none
(no worker started yet) or some handle (one worker handle remembered); a
completing call always re-enters the remembered state with the fresh
handle as payload, a throwing call performs no transition at all, and no
state is terminal: from any state a further call can complete, for
instance under a platform that does not refuse the spawn. -/
theorem startWorker_state_machine (plat : Platform) (env : Env)
    (w : World σ) :
    (∀ h : WorkerHandle, (startWorker plat env w).1 = Except.ok h →
        (startWorker plat env w).2._worker = some h) ∧
    (∀ e : SpawnError, (startWorker plat env w).1 = Except.error e →
        (startWorker plat env w).2._worker = w._worker) ∧
    (∃ h : WorkerHandle,
        (startWorker ⟨fun _ => none⟩ env w).1 = Except.ok h ∧
        (startWorker ⟨fun _ => none⟩ env w).2._worker = some h) := by
  refine ⟨?_, ?_, ?_⟩ <;>
    simp only [startWorker_eq] <;>
    cases hf : plat.fails w.nextId <;> simp [hf]

/-- Witness for C7: from a world that already remembers a worker, a call
re-enters the remembered state with the new payload. -/
theorem startWorker_state_machine_witness :
    (startWorker okPlat testEnv midWorld).2._worker
      = some ⟨1, workerScriptURL testEnv, workerOptions⟩ :=
  (startWorker_state_machine okPlat testEnv midWorld).1
    ⟨1, workerScriptURL testEnv, workerOptions⟩ rfl

/-- Claim C8: the only state mutated by startWorker's own logic is the
module binding for the remembered handle: the world it returns agrees
with the world produced by the delegated constructor call on every
component other than that binding, and all state outside the module is
untouched. -/
theorem startWorker_frame (plat : Platform) (env : Env) (w : World σ) :
    (startWorker plat env w).2.other = w.other ∧
    (startWorker plat env w).2.nextId
        = (newWorker plat (workerScriptURL env) workerOptions w).2.nextId ∧
    (startWorker plat env w).2.spawnLog
        = (newWorker plat (workerScriptURL env) workerOptions w).2.spawnLog ∧
    (startWorker plat env w).2.other
        = (newWorker plat (workerScriptURL env) workerOptions w).2.other := by
  cases hf : plat.fails w.nextId <;> simp [startWorker, newWorker, hf]

/-- Claim C9: startWorker consumes no caller-supplied input: the options
and the relative resource path handed to the constructor are hard-coded
constants, the resolution base is the ambient module location, and the
outcome of any call is either a handle or a propagated platform error. -/
theorem startWorker_no_inputs (plat : Platform) (env : Env) (w : World σ) :
    workerOptions = ⟨"module", "wasm_thread"⟩ ∧
    workerScriptURL env = ⟨"./web_worker_module.js", env.importMetaUrl⟩ ∧
    ((∃ h : WorkerHandle, (startWorker plat env w).1 = Except.ok h) ∨
      (∃ e : SpawnError, (startWorker plat env w).1 = Except.error e)) := by
  refine ⟨rfl, rfl, ?_⟩
  rw [startWorker_eq]
  cases hf : plat.fails w.nextId <;> simp [hf]

/-- Claim C10: the module exports startWorker and nothing else, so the
binding for the remembered handle is module-private; and the module never
reads that binding back: the outcome of a call and every component of the
resulting world apart from the binding itself are independent of the
value the binding held before the call. -/
theorem startWorker_encapsulation (plat : Platform) (env : Env)
    (w : World σ) (o : Option WorkerHandle) :
    moduleExports = ["startWorker"] ∧
    "_worker" ∉ moduleExports ∧
    (startWorker plat env (⟨o, w.nextId, w.spawnLog, w.other⟩ : World σ)).1
        = (startWorker plat env w).1 ∧
    (startWorker plat env
        (⟨o, w.nextId, w.spawnLog, w.other⟩ : World σ)).2.nextId
        = (startWorker plat env w).2.nextId ∧
    (startWorker plat env
        (⟨o, w.nextId, w.spawnLog, w.other⟩ : World σ)).2.spawnLog
        = (startWorker plat env w).2.spawnLog ∧
    (startWorker plat env
        (⟨o, w.nextId, w.spawnLog, w.other⟩ : World σ)).2.other
        = (startWorker plat env w).2.other := by
  refine ⟨rfl, by simp [moduleExports], ?_, ?_, ?_, ?_⟩ <;>
    simp only [startWorker_eq] <;>
    cases hf : plat.fails w.nextId <;> simp [hf]

end WasmThread
